import Mathlib

/-!
Verification development for the `daytona-python-sdk` repository,
`src/daytona_sdk/sandbox.py`.

The subject of the claims is the remote-state polling protocol of
`Sandbox.wait_for_sandbox_start` and `Sandbox.wait_for_sandbox_stop`
(plus their deprecated aliases), together with `Sandbox.set_autostop_interval`
and `Sandbox.set_labels`.

Modelling conventions:
* A status query (`self.sandbox_api.get_workspace(self.id)`) either returns a
  response object carrying `state : String` and `error_reason : Optional[str]`,
  or raises an exception carrying a message (`str(e)`).  One wait call is run
  against a finite scripted list of such query outcomes.
* The result of a wait call records its outcome together with how many status
  queries were issued and how many 100 ms sleeps were performed.
* The `with_timeout` decorator and the `DaytonaError` class live in
  `_utils/timeout.py` and `common/errors.py`, which are not part of the given
  sources; they are modelled from the spec where needed (see `withTimeout`).
  The `intercept_errors` decorator only prefixes messages of surfaced errors
  and is not modelled.
-/

namespace Daytona

/-- Prefix test on character lists (the building block of the model of the
Python substring operator `in`). -/
def isPre : List Char → List Char → Bool
  | [], _ => true
  | _ :: _, [] => false
  | a :: as, b :: bs => a == b && isPre as bs

/-- Substring containment on character lists. -/
def hasSub (pat : List Char) : List Char → Bool
  | [] => isPre pat []
  | c :: cs => isPre pat (c :: cs) || hasSub pat cs

/-- Model of the Python expression `pat in s` for strings. -/
def strContains (s pat : String) : Bool :=
  hasSub pat.data s.data

/-- Model of the Python rendering of an `Optional[str]` inside an f-string:
`None` prints as the literal text `None`. -/
def pyOptStr : Option String → String
  | none => "None"
  | some s => s

/-- The response object returned by `sandbox_api.get_workspace`: the fields the
wait loops read. -/
structure WorkspaceResponse where
  state : String
  error_reason : Option String
deriving DecidableEq, Repr

/-- One scripted outcome of a status query: either a response object, or an
exception raised by the query itself, carrying its `str(e)` rendering. -/
inductive QueryResult where
  | ok (response : WorkspaceResponse)
  | exn (msg : String)
deriving DecidableEq, Repr

/-- How one wait call ends.
`errorState` is the `DaytonaError` raised on observing state `error`;
`queryFailure` is a status-query exception propagated unchanged;
`timedOut` is the deadline failure of the `with_timeout` decorator;
`invalidArgument` is the rejection of a negative timeout;
`exhausted` means the scripted trace ran out with the loop still polling. -/
inductive WaitOutcome where
  | success
  | errorState (msg : String)
  | queryFailure (msg : String)
  | timedOut (msg : String)
  | invalidArgument (msg : String)
  | exhausted
deriving DecidableEq, Repr

/-- Result of one wait call: outcome, number of status queries issued, number
of 100 ms sleeps performed. -/
structure WaitResult where
  outcome : WaitOutcome
  queries : Nat
  sleeps : Nat
deriving DecidableEq, Repr

/-- Message of the `DaytonaError` raised by `wait_for_sandbox_start` on
observing state `error` (sandbox.py line 379; at the raise site the `state`
interpolation is the literal text `error`). -/
def startErrMsg (id : String) (reason : Option String) : String :=
  "Sandbox " ++ (id ++ ( " failed to start with state: error, error reason: " ++ pyOptStr reason))

/-- Message of the `DaytonaError` raised by `wait_for_sandbox_stop` on
observing state `error` (sandbox.py line 431). -/
def stopErrMsg (id : String) (reason : Option String) : String :=
  "Sandbox " ++ (id ++ ( " failed to stop with status: error, error reason: " ++ pyOptStr reason))

/-- Timeout message of the decorated `wait_for_sandbox_start`
(sandbox.py lines 354-358); `tstr` is the rendering of the timeout value. -/
def startTimeoutMsg (id tstr : String) : String :=
  "Sandbox " ++ (id ++ ( " failed to become ready within the " ++ (tstr ++ " seconds timeout period")))

/-- Timeout message of the decorated `wait_for_sandbox_stop`
(sandbox.py lines 404-408). -/
def stopTimeoutMsg (id tstr : String) : String :=
  "Sandbox " ++ (id ++ ( " failed to become stopped within the " ++ (tstr ++ " seconds timeout period")))

/-- Deadline test: `deadline = some d` allows at most `d` completed sleeps
before the wrapper aborts the loop; `none` means no deadline. -/
def hitDeadline : Option Nat → Nat → Bool
  | none, _ => false
  | some d, s => d < s

/-- The polling loop of `wait_for_sandbox_start` (sandbox.py lines 372-382),
run against the scripted trace, accumulating query and sleep counts.
Per iteration the source queries, stores the state, raises on state `error`,
sleeps 100 ms, and re-checks `state != "started"`; a query exception
propagates (there is no `try` on the start path).  The deadline of the
`with_timeout` wrapper is checked once a sleep completes with the loop about
to continue; reaching the target state terminates the call. -/
def waitStartLoop (id : String) (deadline : Option Nat) (tmsg : String) :
    List QueryResult → Nat → Nat → WaitResult
  | [], q, s => ⟨.exhausted, q, s⟩
  | QueryResult.exn m :: _, q, s => ⟨.queryFailure m, q + 1, s⟩
  | QueryResult.ok r :: rest, q, s =>
    if r.state = "error" then
      ⟨.errorState (startErrMsg id r.error_reason), q + 1, s⟩
    else if r.state = "started" then
      ⟨.success, q + 1, s + 1⟩
    else if hitDeadline deadline (s + 1) then
      ⟨.timedOut tmsg, q + 1, s + 1⟩
    else
      waitStartLoop id deadline tmsg rest (q + 1) (s + 1)

/-- The polling loop of `wait_for_sandbox_stop` (sandbox.py lines 423-438).
The whole iteration body is wrapped in `try/except`: any exception whose
`str(e)` contains the text `validation error` is swallowed and polling
continues, every other exception propagates.  In particular the
`DaytonaError` raised on observing state `error` is itself intercepted by
that handler, so it only propagates when its own formatted message does not
contain `validation error`.  The Python `state` variable is read only by the
`while` condition; it can hold the target value only on the branch that
exits on the very next check, so it is not threaded through the model. -/
def waitStopLoop (id : String) (deadline : Option Nat) (tmsg : String) :
    List QueryResult → Nat → Nat → WaitResult
  | [], q, s => ⟨.exhausted, q, s⟩
  | QueryResult.exn m :: rest, q, s =>
    if strContains m "validation error" then
      if hitDeadline deadline (s + 1) then
        ⟨.timedOut tmsg, q + 1, s + 1⟩
      else
        waitStopLoop id deadline tmsg rest (q + 1) (s + 1)
    else
      ⟨.queryFailure m, q + 1, s⟩
  | QueryResult.ok r :: rest, q, s =>
    if r.state = "error" then
      if strContains (stopErrMsg id r.error_reason) "validation error" then
        if hitDeadline deadline (s + 1) then
          ⟨.timedOut tmsg, q + 1, s + 1⟩
        else
          waitStopLoop id deadline tmsg rest (q + 1) (s + 1)
      else
        ⟨.errorState (stopErrMsg id r.error_reason), q + 1, s⟩
    else if r.state = "stopped" then
      ⟨.success, q + 1, s + 1⟩
    else if hitDeadline deadline (s + 1) then
      ⟨.timedOut tmsg, q + 1, s + 1⟩
    else
      waitStopLoop id deadline tmsg rest (q + 1) (s + 1)

/-- Largest number of completed 100 ms sleeps whose elapsed time does not
exceed `timeout` seconds. -/
def maxSleepsAllowed (timeout : ℚ) : Nat :=
  (⌊10 * timeout⌋).toNat

/-- Modelled from the spec: the `with_timeout` decorator of
`_utils/timeout.py`, which is not among the given sources.  Per the spec, a
negative timeout is a caller error rejected before the wrapped loop runs
(no query is issued), `timeout = 0` disables the deadline, and a positive
timeout aborts the loop with a timeout error once elapsed wall-clock time
(here: 100 ms per completed sleep) exceeds the timeout. -/
def withTimeout (timeout : ℚ) (body : Option Nat → WaitResult) : WaitResult :=
  if timeout < 0 then
    ⟨.invalidArgument "Timeout must be a non-negative number", 0, 0⟩
  else if timeout = 0 then
    body none
  else
    body (some (maxSleepsAllowed timeout))

/-- `Sandbox.wait_for_sandbox_start` (sandbox.py lines 353-382) run against a
scripted trace of query outcomes.  The numeric rendering of the timeout in
the decorator message is abstracted as the decimal form of the rational. -/
def wait_for_sandbox_start (id : String) (timeout : ℚ) (trace : List QueryResult) : WaitResult :=
  withTimeout timeout (fun d => waitStartLoop id d (startTimeoutMsg id (toString timeout)) trace 0 0)

/-- `Sandbox.wait_for_sandbox_stop` (sandbox.py lines 403-438) run against a
scripted trace of query outcomes. -/
def wait_for_sandbox_stop (id : String) (timeout : ℚ) (trace : List QueryResult) : WaitResult :=
  withTimeout timeout (fun d => waitStopLoop id d (stopTimeoutMsg id (toString timeout)) trace 0 0)

/-- Deprecated `Sandbox.wait_for_workspace_start` (sandbox.py lines 335-351):
its body is the single delegation `self.wait_for_sandbox_start(timeout)`. -/
def wait_for_workspace_start (id : String) (timeout : ℚ) (trace : List QueryResult) : WaitResult :=
  wait_for_sandbox_start id timeout trace

/-- Deprecated `Sandbox.wait_for_workspace_stop` (sandbox.py lines 384-401):
its body is the single delegation `self.wait_for_sandbox_stop(timeout)`. -/
def wait_for_workspace_stop (id : String) (timeout : ℚ) (trace : List QueryResult) : WaitResult :=
  wait_for_sandbox_stop id timeout trace

/-- A query outcome that keeps the start-path loop polling: a returned
response whose state is neither the target `started` nor `error`. -/
def pendingForStart : QueryResult → Bool
  | .ok r => !(r.state == "started") && !(r.state == "error")
  | .exn _ => false

/-- A query outcome that keeps the stop-path loop polling without touching
its exception handler: a returned response whose state is neither the target
`stopped` nor `error`. -/
def pendingForStop : QueryResult → Bool
  | .ok r => !(r.state == "stopped") && !(r.state == "error")
  | .exn _ => false

/-- A query outcome after which the stop-path loop continues polling,
covering also the swallowed exceptional cases. -/
def stopContinues (id : String) : QueryResult → Bool
  | .exn m => strContains m "validation error"
  | .ok r =>
    if r.state = "error" then strContains (stopErrMsg id r.error_reason) "validation error"
    else !(r.state == "stopped")

/-- The termination modes enumerated by the spec invariant: success, timeout
failure, error-state failure. -/
def claimedTerminationMode : WaitOutcome → Bool
  | .success => true
  | .timedOut _ => true
  | .errorState _ => true
  | _ => false

/-- Discriminator for the negative-timeout rejection outcome. -/
def isInvalidArg : WaitOutcome → Bool
  | .invalidArgument _ => true
  | _ => false

/-- Client-visible state touched by `set_autostop_interval`: the cached
`instance.auto_stop_interval` field and the log of intervals sent to
`sandbox_api.set_autostop_interval`. -/
structure AutostopState where
  auto_stop_interval : Int
  apiCalls : List Int
deriving DecidableEq, Repr

/-- The argument of `set_autostop_interval` as a Python value: an `int`
(note that Python `bool` is a subclass of `int` and passes the check), or
any value of another type. -/
inductive PyIntArg where
  | int (n : Int)
  | nonIntValue (rendering : String)
deriving DecidableEq, Repr

/-- Result of `set_autostop_interval`: normal return with the updated state,
or a raised `DaytonaError` with the state at raise time. -/
inductive SetAutostopResult where
  | ok (st : AutostopState)
  | err (msg : String) (st : AutostopState)
deriving DecidableEq, Repr

/-- `Sandbox.set_autostop_interval` (sandbox.py lines 440-467): reject a
non-`int` or negative argument with a `DaytonaError` before the API call,
otherwise call the API and then cache the interval on the instance. -/
def set_autostop_interval (st : AutostopState) (interval : PyIntArg) : SetAutostopResult :=
  match interval with
  | .int n =>
    if n < 0 then
      .err "Auto-stop interval must be a non-negative integer" st
    else
      .ok { auto_stop_interval := n, apiCalls := st.apiCalls ++ [n] }
  | .nonIntValue _ =>
    .err "Auto-stop interval must be a non-negative integer" st

/-- A Python label value as seen by `set_labels`: either a `bool`, or any
other value represented by its `str()` rendering. -/
inductive PyLabelVal where
  | pyBool (b : Bool)
  | pyStr (rendering : String)
deriving DecidableEq, Repr

/-- The Python `str()` rendering of a `bool`. -/
def pyStrOfBool : Bool → String
  | true => "True"
  | false => "False"

/-- The Python `str.lower()` method, character by character (for the ASCII
strings involved here this is plain ASCII lowercasing). -/
def pyLower (s : String) : String :=
  ⟨s.data.map Char.toLower⟩

/-- One label value as normalized by `set_labels` (sandbox.py lines 274-277):
`str(v).lower() if isinstance(v, bool) else str(v)`. -/
def normalizeLabelVal : PyLabelVal → String
  | .pyBool b => pyLower (pyStrOfBool b)
  | .pyStr s => s

/-- The payload sent to `sandbox_api.replace_labels`: the dictionary
`{"labels": string_labels}` (sandbox.py line 278). -/
structure LabelsPayload where
  labels : List (String × String)
deriving DecidableEq, Repr

/-- `Sandbox.set_labels` (sandbox.py lines 251-279): normalize every value,
keep keys unchanged, and wrap the result as the labels payload. -/
def set_labels (labels : List (String × PyLabelVal)) : LabelsPayload :=
  { labels := labels.map (fun kv => (kv.1, normalizeLabelVal kv.2)) }

/-- Normalization as worded by the claim: booleans become the lowercase
literals `true` and `false`, everything else its `str()` rendering. -/
def specLabelVal : PyLabelVal → String
  | .pyBool b => if b then "true" else "false"
  | .pyStr s => s

/-! ### Substring lemmas -/

theorem hasSub_nil_pat (l : List Char) : hasSub [] l = true := by
  cases l with
  | nil => rfl
  | cons c cs => simp [hasSub, isPre]

theorem isPre_self_append (p t : List Char) : isPre p (p ++ t) = true := by
  induction p with
  | nil => rfl
  | cons a as ih => simp [isPre, ih]

theorem hasSub_self_append (p t : List Char) : hasSub p (p ++ t) = true := by
  cases p with
  | nil => exact hasSub_nil_pat t
  | cons a as =>
    have h := isPre_self_append (a :: as) t
    simp only [List.cons_append] at h
    simp [hasSub, h]

theorem hasSub_append_left (p : List Char) (x : List Char) {l : List Char}
    (h : hasSub p l = true) : hasSub p (x ++ l) = true := by
  induction x with
  | nil => simpa using h
  | cons c cs ih =>
    simp only [List.cons_append]
    simp [hasSub, ih]

theorem isPre_append_right (p : List Char) : ∀ (l x : List Char),
    isPre p l = true → isPre p (l ++ x) = true := by
  induction p with
  | nil => intro l x _; rfl
  | cons a as ih =>
    intro l x h
    cases l with
    | nil => simp [isPre] at h
    | cons b bs =>
      simp only [isPre, Bool.and_eq_true] at h
      simp only [List.cons_append, isPre, Bool.and_eq_true]
      exact ⟨h.1, ih bs x h.2⟩

theorem hasSub_append_right (p : List Char) : ∀ (l x : List Char),
    hasSub p l = true → hasSub p (l ++ x) = true := by
  intro l
  induction l with
  | nil =>
    intro x h
    cases p with
    | nil => exact hasSub_nil_pat x
    | cons a as => simp [hasSub, isPre] at h
  | cons c cs ih =>
    intro x h
    simp only [hasSub, Bool.or_eq_true] at h
    simp only [List.cons_append, hasSub, Bool.or_eq_true]
    rcases h with h | h
    · exact Or.inl (isPre_append_right p (c :: cs) x h)
    · exact Or.inr (ih x h)

theorem strContains_append_left (x s pat : String) (h : strContains s pat = true) :
    strContains (x ++ s) pat = true := by
  unfold strContains at h ⊢
  rw [String.data_append]
  exact hasSub_append_left _ _ h

theorem strContains_append_right (s x pat : String) (h : strContains s pat = true) :
    strContains (s ++ x) pat = true := by
  unfold strContains at h ⊢
  rw [String.data_append]
  exact hasSub_append_right _ _ _ h

theorem strContains_self_append (s t : String) : strContains (s ++ t) s = true := by
  unfold strContains
  rw [String.data_append]
  exact hasSub_self_append _ _

theorem strContains_self (s : String) : strContains s s = true := by
  have h := strContains_self_append s ""
  simpa using h

/-! ### Loop lemmas -/

theorem waitStartLoop_pending_cons (id tmsg : String) (r : WorkspaceResponse)
    (h1 : ¬r.state = "started") (h2 : ¬r.state = "error")
    (rest : List QueryResult) (q s : Nat) :
    waitStartLoop id none tmsg (QueryResult.ok r :: rest) q s =
      waitStartLoop id none tmsg rest (q + 1) (s + 1) := by
  simp [waitStartLoop, h1, h2, hitDeadline]

theorem waitStartLoop_pending_run (id tmsg : String) :
    ∀ (pre : List QueryResult), (∀ r ∈ pre, pendingForStart r = true) →
    ∀ (trace : List QueryResult) (q s : Nat),
    waitStartLoop id none tmsg (pre ++ trace) q s =
      waitStartLoop id none tmsg trace (q + pre.length) (s + pre.length) := by
  intro pre
  induction pre with
  | nil => intro _ trace q s; simp
  | cons r rs ih =>
    intro h trace q s
    have hr := h r (by simp)
    cases r with
    | exn m => simp [pendingForStart] at hr
    | ok resp =>
      rw [List.cons_append]
      obtain ⟨h1, h2⟩ : ¬resp.state = "started" ∧ ¬resp.state = "error" := by
        simpa [pendingForStart] using hr
      rw [waitStartLoop_pending_cons id tmsg resp h1 h2]
      rw [ih (fun x hx => h x (by simp [hx])) trace (q + 1) (s + 1)]
      have e1 : q + 1 + rs.length = q + (rs.length + 1) := by omega
      have e2 : s + 1 + rs.length = s + (rs.length + 1) := by omega
      rw [e1, e2]
      simp

theorem waitStopLoop_continue_cons (id tmsg : String) (r : QueryResult)
    (h : stopContinues id r = true) (rest : List QueryResult) (q s : Nat) :
    waitStopLoop id none tmsg (r :: rest) q s =
      waitStopLoop id none tmsg rest (q + 1) (s + 1) := by
  cases r with
  | exn m =>
    simp only [stopContinues] at h
    simp [waitStopLoop, h, hitDeadline]
  | ok resp =>
    by_cases he : resp.state = "error"
    · simp only [stopContinues, he, if_pos] at h
      simp [waitStopLoop, he, h, hitDeadline]
    · simp only [stopContinues, if_neg he] at h
      have hs : ¬resp.state = "stopped" := by simpa using h
      simp [waitStopLoop, he, hs, hitDeadline]

theorem waitStopLoop_continue_run (id tmsg : String) :
    ∀ (pre : List QueryResult), (∀ r ∈ pre, stopContinues id r = true) →
    ∀ (trace : List QueryResult) (q s : Nat),
    waitStopLoop id none tmsg (pre ++ trace) q s =
      waitStopLoop id none tmsg trace (q + pre.length) (s + pre.length) := by
  intro pre
  induction pre with
  | nil => intro _ trace q s; simp
  | cons r rs ih =>
    intro h trace q s
    rw [List.cons_append]
    rw [waitStopLoop_continue_cons id tmsg r (h r (by simp))]
    rw [ih (fun x hx => h x (by simp [hx])) trace (q + 1) (s + 1)]
    have e1 : q + 1 + rs.length = q + (rs.length + 1) := by omega
    have e2 : s + 1 + rs.length = s + (rs.length + 1) := by omega
    rw [e1, e2]
    simp

theorem pendingForStop_continues (id : String) (r : QueryResult)
    (h : pendingForStop r = true) : stopContinues id r = true := by
  cases r with
  | exn m => simp [pendingForStop] at h
  | ok resp =>
    obtain ⟨h1, h2⟩ : ¬resp.state = "stopped" ∧ ¬resp.state = "error" := by
      simpa [pendingForStop] using h
    simp [stopContinues, h1, h2]

theorem waitStartLoop_timeout (id tmsg : String) :
    ∀ (trace : List QueryResult) (d q s : Nat),
    (∀ r ∈ trace, pendingForStart r = true) → s ≤ d → d + 1 ≤ s + trace.length →
    waitStartLoop id (some d) tmsg trace q s =
      ⟨.timedOut tmsg, q + (d + 1 - s), d + 1⟩ := by
  intro trace
  induction trace with
  | nil =>
    intro d q s _ h1 h2
    simp only [List.length_nil, Nat.add_zero] at h2
    exact ((by omega : False)).elim
  | cons r rest ih =>
    intro d q s hall h1 h2
    have hr := hall r (by simp)
    cases r with
    | exn m => simp [pendingForStart] at hr
    | ok resp =>
      obtain ⟨hs, he⟩ : ¬resp.state = "started" ∧ ¬resp.state = "error" := by
        simpa [pendingForStart] using hr
      by_cases hd : d < s + 1
      · have hds : d = s := by omega
        simp [waitStartLoop, hs, he, hitDeadline, hd, hds, WaitResult.mk.injEq]
      · have hstep : s + 1 ≤ d := by omega
        simp only [waitStartLoop]
        rw [if_neg he, if_neg hs, if_neg (by simpa [hitDeadline] using hd)]
        rw [ih d (q + 1) (s + 1) (fun x hx => hall x (by simp [hx])) hstep
          (by simp only [List.length_cons] at h2 ⊢; omega)]
        simp only [WaitResult.mk.injEq, true_and, and_true]
        omega

theorem waitStopLoop_timeout (id tmsg : String) :
    ∀ (trace : List QueryResult) (d q s : Nat),
    (∀ r ∈ trace, pendingForStop r = true) → s ≤ d → d + 1 ≤ s + trace.length →
    waitStopLoop id (some d) tmsg trace q s =
      ⟨.timedOut tmsg, q + (d + 1 - s), d + 1⟩ := by
  intro trace
  induction trace with
  | nil =>
    intro d q s _ h1 h2
    simp only [List.length_nil, Nat.add_zero] at h2
    exact ((by omega : False)).elim
  | cons r rest ih =>
    intro d q s hall h1 h2
    have hr := hall r (by simp)
    cases r with
    | exn m => simp [pendingForStop] at hr
    | ok resp =>
      obtain ⟨hs, he⟩ : ¬resp.state = "stopped" ∧ ¬resp.state = "error" := by
        simpa [pendingForStop] using hr
      by_cases hd : d < s + 1
      · have hds : d = s := by omega
        simp [waitStopLoop, hs, he, hitDeadline, hd, hds, WaitResult.mk.injEq]
      · have hstep : s + 1 ≤ d := by omega
        simp only [waitStopLoop]
        rw [if_neg he, if_neg hs, if_neg (by simpa [hitDeadline] using hd)]
        rw [ih d (q + 1) (s + 1) (fun x hx => hall x (by simp [hx])) hstep
          (by simp only [List.length_cons] at h2 ⊢; omega)]
        simp only [WaitResult.mk.injEq, true_and, and_true]
        omega

theorem waitStartLoop_success_split (id tmsg : String) :
    ∀ (trace : List QueryResult) (d : Option Nat) (q s : Nat),
    (waitStartLoop id d tmsg trace q s).outcome = WaitOutcome.success →
    ∃ pre r rest, trace = pre ++ QueryResult.ok r :: rest ∧ r.state = "started" ∧
      (waitStartLoop id d tmsg trace q s).queries = q + pre.length + 1 := by
  intro trace
  induction trace with
  | nil => intro d q s h; simp [waitStartLoop] at h
  | cons x rest ih =>
    intro d q s h
    cases x with
    | exn m => simp [waitStartLoop] at h
    | ok resp =>
      by_cases he : resp.state = "error"
      · simp [waitStartLoop, he] at h
      · by_cases hs : resp.state = "started"
        · refine ⟨[], resp, rest, by simp, hs, ?_⟩
          simp [waitStartLoop, he, hs]
        · by_cases hd : hitDeadline d (s + 1) = true
          · simp [waitStartLoop, he, hs, hd] at h
          · have hrec : waitStartLoop id d tmsg (QueryResult.ok resp :: rest) q s =
                waitStartLoop id d tmsg rest (q + 1) (s + 1) := by
              simp only [waitStartLoop]
              rw [if_neg he, if_neg hs, if_neg (by simp [hd])]
            rw [hrec] at h ⊢
            obtain ⟨pre, r, rest2, hsplit, hst, hq⟩ := ih d (q + 1) (s + 1) h
            refine ⟨QueryResult.ok resp :: pre, r, rest2, by simp [hsplit], hst, ?_⟩
            rw [hq]
            simp only [List.length_cons]
            omega

theorem waitStopLoop_success_split (id tmsg : String) :
    ∀ (trace : List QueryResult) (d : Option Nat) (q s : Nat),
    (waitStopLoop id d tmsg trace q s).outcome = WaitOutcome.success →
    ∃ pre r rest, trace = pre ++ QueryResult.ok r :: rest ∧ r.state = "stopped" ∧
      (waitStopLoop id d tmsg trace q s).queries = q + pre.length + 1 := by
  intro trace
  induction trace with
  | nil => intro d q s h; simp [waitStopLoop] at h
  | cons x rest ih =>
    intro d q s h
    have step : ∀ (hrec : waitStopLoop id d tmsg (x :: rest) q s =
        waitStopLoop id d tmsg rest (q + 1) (s + 1)),
        ∃ pre r rest2, (x :: rest : List QueryResult) = pre ++ QueryResult.ok r :: rest2 ∧
          r.state = "stopped" ∧
          (waitStopLoop id d tmsg (x :: rest) q s).queries = q + pre.length + 1 := by
      intro hrec
      rw [hrec] at h ⊢
      obtain ⟨pre, r, rest2, hsplit, hst, hq⟩ := ih d (q + 1) (s + 1) h
      refine ⟨x :: pre, r, rest2, by simp [hsplit], hst, ?_⟩
      rw [hq]
      simp only [List.length_cons]
      omega
    cases x with
    | exn m =>
      by_cases hv : strContains m "validation error" = true
      · by_cases hd : hitDeadline d (s + 1) = true
        · simp [waitStopLoop, hv, hd] at h
        · refine step ?_
          simp only [waitStopLoop]
          rw [if_pos hv, if_neg (by simp [hd])]
      · simp [waitStopLoop, hv] at h
    | ok resp =>
      by_cases he : resp.state = "error"
      · by_cases hv : strContains (stopErrMsg id resp.error_reason) "validation error" = true
        · by_cases hd : hitDeadline d (s + 1) = true
          · simp [waitStopLoop, he, hv, hd] at h
          · refine step ?_
            simp only [waitStopLoop]
            rw [if_pos he, if_pos hv, if_neg (by simp [hd])]
        · simp [waitStopLoop, he, hv] at h
      · by_cases hs : resp.state = "stopped"
        · refine ⟨[], resp, rest, by simp, hs, ?_⟩
          simp [waitStopLoop, he, hs]
        · by_cases hd : hitDeadline d (s + 1) = true
          · simp [waitStopLoop, he, hs, hd] at h
          · refine step ?_
            simp only [waitStopLoop]
            rw [if_neg he, if_neg hs, if_neg (by simp [hd])]

theorem waitStartLoop_no_invalid (id tmsg : String) :
    ∀ (trace : List QueryResult) (d : Option Nat) (q s : Nat),
    isInvalidArg (waitStartLoop id d tmsg trace q s).outcome = false := by
  intro trace
  induction trace with
  | nil => intro d q s; simp [waitStartLoop, isInvalidArg]
  | cons x rest ih =>
    intro d q s
    cases x with
    | exn m => simp [waitStartLoop, isInvalidArg]
    | ok resp =>
      by_cases he : resp.state = "error"
      · simp [waitStartLoop, he, isInvalidArg]
      · by_cases hs : resp.state = "started"
        · simp [waitStartLoop, he, hs, isInvalidArg]
        · by_cases hd : hitDeadline d (s + 1) = true
          · simp [waitStartLoop, he, hs, hd, isInvalidArg]
          · have hrec : waitStartLoop id d tmsg (QueryResult.ok resp :: rest) q s =
                waitStartLoop id d tmsg rest (q + 1) (s + 1) := by
              simp only [waitStartLoop]
              rw [if_neg he, if_neg hs, if_neg (by simp [hd])]
            rw [hrec]
            exact ih d (q + 1) (s + 1)

theorem waitStopLoop_no_invalid (id tmsg : String) :
    ∀ (trace : List QueryResult) (d : Option Nat) (q s : Nat),
    isInvalidArg (waitStopLoop id d tmsg trace q s).outcome = false := by
  intro trace
  induction trace with
  | nil => intro d q s; simp [waitStopLoop, isInvalidArg]
  | cons x rest ih =>
    intro d q s
    cases x with
    | exn m =>
      by_cases hv : strContains m "validation error" = true
      · by_cases hd : hitDeadline d (s + 1) = true
        · simp [waitStopLoop, hv, hd, isInvalidArg]
        · have hrec : waitStopLoop id d tmsg (QueryResult.exn m :: rest) q s =
              waitStopLoop id d tmsg rest (q + 1) (s + 1) := by
            simp only [waitStopLoop]
            rw [if_pos hv, if_neg (by simp [hd])]
          rw [hrec]
          exact ih d (q + 1) (s + 1)
      · simp [waitStopLoop, hv, isInvalidArg]
    | ok resp =>
      by_cases he : resp.state = "error"
      · by_cases hv : strContains (stopErrMsg id resp.error_reason) "validation error" = true
        · by_cases hd : hitDeadline d (s + 1) = true
          · simp [waitStopLoop, he, hv, hd, isInvalidArg]
          · have hrec : waitStopLoop id d tmsg (QueryResult.ok resp :: rest) q s =
                waitStopLoop id d tmsg rest (q + 1) (s + 1) := by
              simp only [waitStopLoop]
              rw [if_pos he, if_pos hv, if_neg (by simp [hd])]
            rw [hrec]
            exact ih d (q + 1) (s + 1)
        · simp [waitStopLoop, he, hv, isInvalidArg]
      · by_cases hs : resp.state = "stopped"
        · simp [waitStopLoop, he, hs, isInvalidArg]
        · by_cases hd : hitDeadline d (s + 1) = true
          · simp [waitStopLoop, he, hs, hd, isInvalidArg]
          · have hrec : waitStopLoop id d tmsg (QueryResult.ok resp :: rest) q s =
                waitStopLoop id d tmsg rest (q + 1) (s + 1) := by
              simp only [waitStopLoop]
              rw [if_neg he, if_neg hs, if_neg (by simp [hd])]
            rw [hrec]
            exact ih d (q + 1) (s + 1)

theorem withTimeout_neg {t : ℚ} (h : t < 0) (body : Option Nat → WaitResult) :
    withTimeout t body = ⟨.invalidArgument "Timeout must be a non-negative number", 0, 0⟩ := by
  simp [withTimeout, h]

theorem withTimeout_zero (body : Option Nat → WaitResult) :
    withTimeout 0 body = body none := by
  simp [withTimeout]

theorem withTimeout_pos {t : ℚ} (h : 0 < t) (body : Option Nat → WaitResult) :
    withTimeout t body = body (some (maxSleepsAllowed t)) := by
  rw [withTimeout, if_neg (by linarith), if_neg (by linarith)]

theorem withTimeout_nonneg {t : ℚ} (h : 0 ≤ t) (body : Option Nat → WaitResult) :
    ∃ d, withTimeout t body = body d := by
  rcases eq_or_lt_of_le h with h0 | hpos
  · exact ⟨none, by rw [← h0, withTimeout_zero]⟩
  · exact ⟨some (maxSleepsAllowed t), withTimeout_pos hpos body⟩

theorem maxSleepsAllowed_one : maxSleepsAllowed 1 = 10 := by
  simp [maxSleepsAllowed]

theorem startErrMsg_contains_reason (id : String) (reason : Option String) :
    strContains (startErrMsg id reason) (pyOptStr reason) = true := by
  unfold startErrMsg
  exact strContains_append_left _ _ _ (strContains_append_left _ _ _
    (strContains_append_left _ _ _ (strContains_self (pyOptStr reason))))

theorem stopErrMsg_contains_reason (id : String) (reason : Option String) :
    strContains (stopErrMsg id reason) (pyOptStr reason) = true := by
  unfold stopErrMsg
  exact strContains_append_left _ _ _ (strContains_append_left _ _ _
    (strContains_append_left _ _ _ (strContains_self (pyOptStr reason))))

theorem startTimeoutMsg_contains_id (id tstr : String) :
    strContains (startTimeoutMsg id tstr) id = true := by
  unfold startTimeoutMsg
  exact strContains_append_left _ _ _ (strContains_self_append id _)

theorem stopTimeoutMsg_contains_id (id tstr : String) :
    strContains (stopTimeoutMsg id tstr) id = true := by
  unfold stopTimeoutMsg
  exact strContains_append_left _ _ _ (strContains_self_append id _)

theorem startTimeoutMsg_contains_tstr (id tstr : String) :
    strContains (startTimeoutMsg id tstr) tstr = true := by
  unfold startTimeoutMsg
  exact strContains_append_left _ _ _ (strContains_append_left _ _ _
    (strContains_append_left _ _ _ (strContains_self_append tstr _)))

theorem stopTimeoutMsg_contains_tstr (id tstr : String) :
    strContains (stopTimeoutMsg id tstr) tstr = true := by
  unfold stopTimeoutMsg
  exact strContains_append_left _ _ _ (strContains_append_left _ _ _
    (strContains_append_left _ _ _ (strContains_self_append tstr _)))

theorem stopTimeoutMsg_contains_target (id tstr : String) :
    strContains (stopTimeoutMsg id tstr) "stopped" = true := by
  unfold stopTimeoutMsg
  apply strContains_append_left
  apply strContains_append_left
  apply strContains_append_right
  decide

/-! ### Claim theorems -/

/-- Claim C1 counterexample: on the stop path an `error` status whose reason
is the text `validation error` is NOT propagated: the raised `DaytonaError`
is intercepted by the own exception handler of the loop, swallowed, and the
wait retries and even succeeds on the next query, refuting the claim that
the error state is never retried and fails the wait on the very iteration
that observes it, for every error reason string. -/
theorem claim1_counterexample :
    wait_for_sandbox_stop "sb" 0
        [QueryResult.ok ⟨ "error", some "validation error"⟩,
         QueryResult.ok ⟨ "stopped", none⟩] =
      ⟨.success, 2, 2⟩ := by
  decide

/-- Claim C1 (amended): a status query returning state `error` makes the
wait fail on that very iteration with a terminal `DaytonaError` whose
message contains the remote-supplied reason, whatever comes later in the
trace — unconditionally on the start path, and on the stop path provided
the formatted error message does not contain the text `validation error`
(otherwise the terminal error is swallowed and polling continues). -/
theorem claim1_error_state_immediate (id tmsg : String) (d : Option Nat)
    (reason : Option String) (rest : List QueryResult) (q s : Nat) :
    waitStartLoop id d tmsg (QueryResult.ok ⟨ "error", reason⟩ :: rest) q s =
      ⟨.errorState (startErrMsg id reason), q + 1, s⟩
  ∧ strContains (startErrMsg id reason) (pyOptStr reason) = true
  ∧ (strContains (stopErrMsg id reason) "validation error" = false →
      waitStopLoop id d tmsg (QueryResult.ok ⟨ "error", reason⟩ :: rest) q s =
        ⟨.errorState (stopErrMsg id reason), q + 1, s⟩)
  ∧ strContains (stopErrMsg id reason) (pyOptStr reason) = true := by
  refine ⟨?_, startErrMsg_contains_reason id reason, ?_, stopErrMsg_contains_reason id reason⟩
  · simp [waitStartLoop]
  · intro h
    simp [waitStopLoop, h]

/-- Claim C1 witness: concrete instance of the amended theorem, with the
stop-path side condition discharged for the reason `boom`. -/
theorem claim1_witness :
    strContains (stopErrMsg "sb" (some "boom")) "validation error" = false ∧
    waitStopLoop "sb" none "tm" [QueryResult.ok ⟨ "error", some "boom"⟩] 0 0 =
      ⟨.errorState (stopErrMsg "sb" (some "boom")), 1, 0⟩ :=
  ⟨by decide, (claim1_error_state_immediate "sb" "tm" none (some "boom") [] 0 0).2.2.1 (by decide)⟩

/-- Claim C2 counterexample: a wait call can also terminate through a fourth
mode absent from the claimed list (success, timeout failure, error-state
failure): a status-query exception propagated by the loop. -/
theorem claim2_counterexample :
    wait_for_sandbox_start "sb" 0 [QueryResult.exn "boom"] =
      ⟨.queryFailure "boom", 1, 0⟩ ∧
    claimedTerminationMode (WaitOutcome.queryFailure "boom") = false := by
  constructor
  · decide
  · decide

/-- Claim C2 (amended): for a non-negative timeout, a wait returns
successfully only if the most recently observed remote status equals its
target state (the trace splits at the deciding query, and the query count
pinpoints it as the last query issued); termination is via success, timeout
failure, error-state failure, or a propagated status-query failure — in
particular the negative-timeout rejection outcome is impossible. -/
theorem claim2_success_needs_target (id : String) (t : ℚ) (trace : List QueryResult)
    (ht : 0 ≤ t) :
    ((wait_for_sandbox_start id t trace).outcome = WaitOutcome.success →
      ∃ pre r rest, trace = pre ++ QueryResult.ok r :: rest ∧ r.state = "started" ∧
        (wait_for_sandbox_start id t trace).queries = pre.length + 1)
  ∧ ((wait_for_sandbox_stop id t trace).outcome = WaitOutcome.success →
      ∃ pre r rest, trace = pre ++ QueryResult.ok r :: rest ∧ r.state = "stopped" ∧
        (wait_for_sandbox_stop id t trace).queries = pre.length + 1)
  ∧ isInvalidArg (wait_for_sandbox_start id t trace).outcome = false
  ∧ isInvalidArg (wait_for_sandbox_stop id t trace).outcome = false := by
  obtain ⟨d1, h1⟩ := withTimeout_nonneg ht
    (fun d => waitStartLoop id d (startTimeoutMsg id (toString t)) trace 0 0)
  obtain ⟨d2, h2⟩ := withTimeout_nonneg ht
    (fun d => waitStopLoop id d (stopTimeoutMsg id (toString t)) trace 0 0)
  have e1 : wait_for_sandbox_start id t trace =
      waitStartLoop id d1 (startTimeoutMsg id (toString t)) trace 0 0 := h1
  have e2 : wait_for_sandbox_stop id t trace =
      waitStopLoop id d2 (stopTimeoutMsg id (toString t)) trace 0 0 := h2
  rw [e1, e2]
  refine ⟨?_, ?_, waitStartLoop_no_invalid _ _ _ _ _ _, waitStopLoop_no_invalid _ _ _ _ _ _⟩
  · intro h
    obtain ⟨pre, r, rest, hsp, hst, hq⟩ := waitStartLoop_success_split _ _ trace d1 0 0 h
    exact ⟨pre, r, rest, hsp, hst, by rw [hq]; omega⟩
  · intro h
    obtain ⟨pre, r, rest, hsp, hst, hq⟩ := waitStopLoop_success_split _ _ trace d2 0 0 h
    exact ⟨pre, r, rest, hsp, hst, by rw [hq]; omega⟩

/-- Claim C2 witness: concrete instance of the amended theorem at a trace
whose single query already returns the target state. -/
theorem claim2_witness :
    ∃ pre r rest,
      ([QueryResult.ok ⟨ "started", none⟩] : List QueryResult) =
        pre ++ QueryResult.ok r :: rest ∧
      r.state = "started" ∧
      (wait_for_sandbox_start "sb" 0 [QueryResult.ok ⟨ "started", none⟩]).queries =
        pre.length + 1 :=
  (claim2_success_needs_target "sb" 0 [QueryResult.ok ⟨ "started", none⟩]
    (by norm_num)).1 (by decide)

/-- Claim C3 counterexample: when the very first status query already
returns the target state, the wait does succeed after exactly one query,
but it performs ONE 100 ms sleep, not zero: in the source the
`time.sleep(0.1)` is executed at the end of every loop body, including the
iteration that observes the target, before the `while` condition is
re-checked. -/
theorem claim3_counterexample :
    wait_for_sandbox_start "sb" 60 [QueryResult.ok ⟨ "started", none⟩] =
      ⟨.success, 1, 1⟩ ∧
    (wait_for_sandbox_start "sb" 60 [QueryResult.ok ⟨ "started", none⟩]).sleeps = 1 := by
  constructor
  · decide
  · decide

/-- Claim C3 (amended): for both target states and every non-negative
timeout, if the first status query returns the target state the wait
returns success after exactly one status query and exactly one 100 ms
sleep (the sleep follows every query, including the final one). -/
theorem claim3_first_query_target (id : String) (t : ℚ) (reason : Option String)
    (rest : List QueryResult) (ht : 0 ≤ t) :
    wait_for_sandbox_start id t (QueryResult.ok ⟨ "started", reason⟩ :: rest) =
      ⟨.success, 1, 1⟩
  ∧ wait_for_sandbox_stop id t (QueryResult.ok ⟨ "stopped", reason⟩ :: rest) =
      ⟨.success, 1, 1⟩ := by
  obtain ⟨d1, h1⟩ := withTimeout_nonneg ht
    (fun d => waitStartLoop id d (startTimeoutMsg id (toString t))
      (QueryResult.ok ⟨ "started", reason⟩ :: rest) 0 0)
  obtain ⟨d2, h2⟩ := withTimeout_nonneg ht
    (fun d => waitStopLoop id d (stopTimeoutMsg id (toString t))
      (QueryResult.ok ⟨ "stopped", reason⟩ :: rest) 0 0)
  constructor
  · have e1 : wait_for_sandbox_start id t (QueryResult.ok ⟨ "started", reason⟩ :: rest) =
        waitStartLoop id d1 (startTimeoutMsg id (toString t))
          (QueryResult.ok ⟨ "started", reason⟩ :: rest) 0 0 := h1
    rw [e1]
    simp [waitStartLoop]
  · have e2 : wait_for_sandbox_stop id t (QueryResult.ok ⟨ "stopped", reason⟩ :: rest) =
        waitStopLoop id d2 (stopTimeoutMsg id (toString t))
          (QueryResult.ok ⟨ "stopped", reason⟩ :: rest) 0 0 := h2
    rw [e2]
    simp [waitStopLoop]

/-- Claim C3 witness: concrete instance of the amended theorem at the
default timeout of 60 seconds. -/
theorem claim3_witness :
    wait_for_sandbox_start "sb" 60 [QueryResult.ok ⟨ "started", some "r"⟩] =
      ⟨.success, 1, 1⟩ ∧
    wait_for_sandbox_stop "sb" 60 [QueryResult.ok ⟨ "stopped", some "r"⟩] =
      ⟨.success, 1, 1⟩ :=
  claim3_first_query_target "sb" 60 (some "r") [] (by norm_num)

/-- Claim C4: on the stop path a status query raising an exception whose
message contains the recognized text `validation error` is swallowed and
polling continues — `n` such failures followed by a `stopped` response give
overall success after `n + 1` queries — while a query exception with an
unrecognized message propagates immediately, surfaced unchanged, on the
very query that raised it; on the start path EVERY query exception — `m3`
below is an arbitrary message, recognized or not — propagates immediately
with no swallowing. -/
theorem claim4_transient_query_failures (id tmsg m m2 m3 : String) (t : ℚ)
    (n : Nat) (reason : Option String) (rest : List QueryResult)
    (d : Option Nat) (q s : Nat)
    (hm : strContains m "validation error" = true)
    (hm2 : strContains m2 "validation error" = false)
    (ht : 0 ≤ t) :
    wait_for_sandbox_stop id 0
        (List.replicate n (QueryResult.exn m) ++
          QueryResult.ok ⟨ "stopped", reason⟩ :: rest) =
      ⟨.success, n + 1, n + 1⟩
  ∧ wait_for_sandbox_stop id t (QueryResult.exn m2 :: rest) = ⟨.queryFailure m2, 1, 0⟩
  ∧ waitStopLoop id d tmsg (QueryResult.exn m2 :: rest) q s = ⟨.queryFailure m2, q + 1, s⟩
  ∧ wait_for_sandbox_start id t (QueryResult.exn m3 :: rest) = ⟨.queryFailure m3, 1, 0⟩
  ∧ waitStartLoop id d tmsg (QueryResult.exn m3 :: rest) q s = ⟨.queryFailure m3, q + 1, s⟩ := by
  obtain ⟨d2, h2⟩ := withTimeout_nonneg ht
    (fun d => waitStopLoop id d (stopTimeoutMsg id (toString t))
      (QueryResult.exn m2 :: rest) 0 0)
  obtain ⟨d1, h1⟩ := withTimeout_nonneg ht
    (fun d => waitStartLoop id d (startTimeoutMsg id (toString t))
      (QueryResult.exn m3 :: rest) 0 0)
  refine ⟨?_, ?_, ?_, ?_, ?_⟩
  · have e : wait_for_sandbox_stop id 0
        (List.replicate n (QueryResult.exn m) ++
          QueryResult.ok ⟨ "stopped", reason⟩ :: rest) =
        waitStopLoop id none (stopTimeoutMsg id (toString (0 : ℚ)))
          (List.replicate n (QueryResult.exn m) ++
            QueryResult.ok ⟨ "stopped", reason⟩ :: rest) 0 0 :=
      withTimeout_zero _
    rw [e]
    rw [waitStopLoop_continue_run id _ (List.replicate n (QueryResult.exn m))
      (fun r hr => by rw [List.eq_of_mem_replicate hr]; simpa [stopContinues] using hm)]
    simp [waitStopLoop, List.length_replicate]
  · have e : wait_for_sandbox_stop id t (QueryResult.exn m2 :: rest) =
        waitStopLoop id d2 (stopTimeoutMsg id (toString t))
          (QueryResult.exn m2 :: rest) 0 0 := h2
    rw [e]
    simp [waitStopLoop, hm2]
  · simp [waitStopLoop, hm2]
  · have e : wait_for_sandbox_start id t (QueryResult.exn m3 :: rest) =
        waitStartLoop id d1 (startTimeoutMsg id (toString t))
          (QueryResult.exn m3 :: rest) 0 0 := h1
    rw [e]
    simp [waitStartLoop]
  · simp [waitStartLoop]

/-- Claim C4 witness: five recognized transient query failures followed by
a `stopped` response succeed on the sixth query; the unrecognized message
`boom` propagates immediately on the stop path, and on the start path both
the unrecognized `boom` and the recognized `a validation error happened`
propagate immediately (two instantiations of the arbitrary `m3`). -/
theorem claim4_witness :
    (wait_for_sandbox_stop "sb" 0
        (List.replicate 5 (QueryResult.exn "a validation error happened") ++
          QueryResult.ok ⟨ "stopped", none⟩ :: []) =
      ⟨.success, 5 + 1, 5 + 1⟩
  ∧ wait_for_sandbox_stop "sb" 0 (QueryResult.exn "boom" :: []) = ⟨.queryFailure "boom", 1, 0⟩
  ∧ waitStopLoop "sb" none "tm" (QueryResult.exn "boom" :: []) 0 0 =
      ⟨.queryFailure "boom", 0 + 1, 0⟩
  ∧ wait_for_sandbox_start "sb" 0 (QueryResult.exn "boom" :: []) =
      ⟨.queryFailure "boom", 1, 0⟩
  ∧ waitStartLoop "sb" none "tm" (QueryResult.exn "boom" :: []) 0 0 =
      ⟨.queryFailure "boom", 0 + 1, 0⟩)
  ∧ wait_for_sandbox_start "sb" 0 (QueryResult.exn "a validation error happened" :: []) =
      ⟨.queryFailure "a validation error happened", 1, 0⟩
  ∧ waitStartLoop "sb" none "tm" (QueryResult.exn "a validation error happened" :: []) 0 0 =
      ⟨.queryFailure "a validation error happened", 0 + 1, 0⟩ :=
  ⟨claim4_transient_query_failures "sb" "tm" "a validation error happened" "boom" "boom" 0 5
      none [] none 0 0 (by decide) (by decide) (by norm_num),
   (claim4_transient_query_failures "sb" "tm" "a validation error happened" "boom"
      "a validation error happened" 0 5 none [] none 0 0 (by decide) (by decide)
      (by norm_num)).2.2.2.1,
   (claim4_transient_query_failures "sb" "tm" "a validation error happened" "boom"
      "a validation error happened" 0 5 none [] none 0 0 (by decide) (by decide)
      (by norm_num)).2.2.2.2⟩

/-- Claim C5: `timeout = 0` disables the deadline entirely — for every
finite run of statuses that are neither the target state nor `error`
followed by the target state, the wait returns success right after the
query observing the target, no matter how many poll iterations (and hence
how much elapsed sleep time) that takes. -/
theorem claim5_zero_timeout_unbounded (id : String) (pre : List QueryResult)
    (reason : Option String) (rest : List QueryResult) :
    ((∀ r ∈ pre, pendingForStart r = true) →
      wait_for_sandbox_start id 0 (pre ++ QueryResult.ok ⟨ "started", reason⟩ :: rest) =
        ⟨.success, pre.length + 1, pre.length + 1⟩)
  ∧ ((∀ r ∈ pre, pendingForStop r = true) →
      wait_for_sandbox_stop id 0 (pre ++ QueryResult.ok ⟨ "stopped", reason⟩ :: rest) =
        ⟨.success, pre.length + 1, pre.length + 1⟩) := by
  constructor
  · intro hall
    have e : wait_for_sandbox_start id 0 (pre ++ QueryResult.ok ⟨ "started", reason⟩ :: rest) =
        waitStartLoop id none (startTimeoutMsg id (toString (0 : ℚ)))
          (pre ++ QueryResult.ok ⟨ "started", reason⟩ :: rest) 0 0 := withTimeout_zero _
    rw [e, waitStartLoop_pending_run id _ pre hall]
    simp [waitStartLoop]
  · intro hall
    have e : wait_for_sandbox_stop id 0 (pre ++ QueryResult.ok ⟨ "stopped", reason⟩ :: rest) =
        waitStopLoop id none (stopTimeoutMsg id (toString (0 : ℚ)))
          (pre ++ QueryResult.ok ⟨ "stopped", reason⟩ :: rest) 0 0 := withTimeout_zero _
    rw [e, waitStopLoop_continue_run id _ pre
      (fun r hr => pendingForStop_continues id r (hall r hr))]
    simp [waitStopLoop]

/-- Claim C5 witness: fifty `pending` responses followed by the target
state succeed on the fifty-first query with timeout zero, on both paths. -/
theorem claim5_witness :
    wait_for_sandbox_start "sb" 0
        (List.replicate 50 (QueryResult.ok ⟨ "pending", none⟩) ++
          QueryResult.ok ⟨ "started", none⟩ :: []) =
      ⟨.success, (List.replicate 50 (QueryResult.ok (⟨ "pending", none⟩ :
        WorkspaceResponse))).length + 1,
        (List.replicate 50 (QueryResult.ok (⟨ "pending", none⟩ :
          WorkspaceResponse))).length + 1⟩
  ∧ wait_for_sandbox_stop "sb" 0
        (List.replicate 50 (QueryResult.ok ⟨ "pending", none⟩) ++
          QueryResult.ok ⟨ "stopped", none⟩ :: []) =
      ⟨.success, (List.replicate 50 (QueryResult.ok (⟨ "pending", none⟩ :
        WorkspaceResponse))).length + 1,
        (List.replicate 50 (QueryResult.ok (⟨ "pending", none⟩ :
          WorkspaceResponse))).length + 1⟩ :=
  ⟨(claim5_zero_timeout_unbounded "sb"
      (List.replicate 50 (QueryResult.ok ⟨ "pending", none⟩)) none []).1 (by decide),
   (claim5_zero_timeout_unbounded "sb"
      (List.replicate 50 (QueryResult.ok ⟨ "pending", none⟩)) none []).2 (by decide)⟩

/-- Claim C6: a negative timeout is rejected with an error before any
status query is issued — the result carries zero queries and zero sleeps —
on both wait paths (the rejection is performed by the `with_timeout`
decorator, modelled from the spec). -/
theorem claim6_negative_timeout_rejected (id : String) (t : ℚ)
    (trace : List QueryResult) (ht : t < 0) :
    wait_for_sandbox_start id t trace =
      ⟨.invalidArgument "Timeout must be a non-negative number", 0, 0⟩
  ∧ wait_for_sandbox_stop id t trace =
      ⟨.invalidArgument "Timeout must be a non-negative number", 0, 0⟩ :=
  ⟨withTimeout_neg ht _, withTimeout_neg ht _⟩

/-- Claim C6 witness: concrete rejection at timeout `-1`. -/
theorem claim6_witness :
    wait_for_sandbox_start "sb" (-1) [QueryResult.ok ⟨ "started", none⟩] =
      ⟨.invalidArgument "Timeout must be a non-negative number", 0, 0⟩
  ∧ wait_for_sandbox_stop "sb" (-1) [QueryResult.ok ⟨ "stopped", none⟩] =
      ⟨.invalidArgument "Timeout must be a non-negative number", 0, 0⟩ :=
  ⟨(claim6_negative_timeout_rejected "sb" (-1) [QueryResult.ok ⟨ "started", none⟩]
      (by norm_num)).1,
   (claim6_negative_timeout_rejected "sb" (-1) [QueryResult.ok ⟨ "stopped", none⟩]
      (by norm_num)).2⟩

/-- Claim C7 counterexample: when the start-path wait times out, its error
message (`... failed to become ready within the 1 seconds timeout period`)
does NOT contain the target state name `started`: it names the resource id
and the timeout value but describes the target as `ready`. -/
theorem claim7_counterexample :
    wait_for_sandbox_start "sb" 1 (List.replicate 11 (QueryResult.ok ⟨ "pending", none⟩)) =
      ⟨.timedOut (startTimeoutMsg "sb" (toString (1 : ℚ))), 11, 11⟩ ∧
    strContains (startTimeoutMsg "sb" (toString (1 : ℚ))) "started" = false := by
  constructor
  · have h := withTimeout_pos (by norm_num : (0 : ℚ) < 1)
      (fun d => waitStartLoop "sb" d (startTimeoutMsg "sb" (toString (1 : ℚ)))
        (List.replicate 11 (QueryResult.ok ⟨ "pending", none⟩)) 0 0)
    have e : wait_for_sandbox_start "sb" 1
        (List.replicate 11 (QueryResult.ok ⟨ "pending", none⟩)) =
        waitStartLoop "sb" (some (maxSleepsAllowed 1)) (startTimeoutMsg "sb" (toString (1 : ℚ)))
          (List.replicate 11 (QueryResult.ok ⟨ "pending", none⟩)) 0 0 := h
    rw [e, maxSleepsAllowed_one]
    decide
  · decide

/-- Claim C7 (amended): when `timeout > 0` and the deadline elapses while
every query keeps returning a non-target, non-error state, both waits fail
with a timeout error; the messages of both paths name the resource id and
the timeout value, the stop-path message also names the literal target
state `stopped`, while the start-path message describes the target as
`ready` instead of naming `started`. -/
theorem claim7_timeout_message (id : String) (t : ℚ) (trace trace2 : List QueryResult)
    (ht : 0 < t) :
    ((∀ r ∈ trace, pendingForStart r = true) → maxSleepsAllowed t + 1 ≤ trace.length →
      wait_for_sandbox_start id t trace =
        ⟨.timedOut (startTimeoutMsg id (toString t)),
          maxSleepsAllowed t + 1, maxSleepsAllowed t + 1⟩)
  ∧ ((∀ r ∈ trace2, pendingForStop r = true) → maxSleepsAllowed t + 1 ≤ trace2.length →
      wait_for_sandbox_stop id t trace2 =
        ⟨.timedOut (stopTimeoutMsg id (toString t)),
          maxSleepsAllowed t + 1, maxSleepsAllowed t + 1⟩)
  ∧ strContains (startTimeoutMsg id (toString t)) id = true
  ∧ strContains (startTimeoutMsg id (toString t)) (toString t) = true
  ∧ strContains (stopTimeoutMsg id (toString t)) id = true
  ∧ strContains (stopTimeoutMsg id (toString t)) (toString t) = true
  ∧ strContains (stopTimeoutMsg id (toString t)) "stopped" = true := by
  refine ⟨?_, ?_, startTimeoutMsg_contains_id id _, startTimeoutMsg_contains_tstr id _,
    stopTimeoutMsg_contains_id id _, stopTimeoutMsg_contains_tstr id _,
    stopTimeoutMsg_contains_target id _⟩
  · intro hall hlen
    have e : wait_for_sandbox_start id t trace =
        waitStartLoop id (some (maxSleepsAllowed t)) (startTimeoutMsg id (toString t))
          trace 0 0 := withTimeout_pos ht _
    rw [e]
    rw [waitStartLoop_timeout id _ trace (maxSleepsAllowed t) 0 0 hall (Nat.zero_le _)
      (by omega)]
    simp
  · intro hall hlen
    have e : wait_for_sandbox_stop id t trace2 =
        waitStopLoop id (some (maxSleepsAllowed t)) (stopTimeoutMsg id (toString t))
          trace2 0 0 := withTimeout_pos ht _
    rw [e]
    rw [waitStopLoop_timeout id _ trace2 (maxSleepsAllowed t) 0 0 hall (Nat.zero_le _)
      (by omega)]
    simp

/-- Claim C7 witness: concrete instance of the amended theorem at timeout
one second, with eleven pending responses exceeding the deadline. -/
theorem claim7_witness :
    wait_for_sandbox_start "sb" 1 (List.replicate 11 (QueryResult.ok ⟨ "pending", none⟩)) =
      ⟨.timedOut (startTimeoutMsg "sb" (toString (1 : ℚ))),
        maxSleepsAllowed 1 + 1, maxSleepsAllowed 1 + 1⟩ :=
  (claim7_timeout_message "sb" 1 (List.replicate 11 (QueryResult.ok ⟨ "pending", none⟩)) []
    (by norm_num)).1 (by decide) (by rw [maxSleepsAllowed_one]; simp)

/-- Claim C8: the deprecated wait methods are pure aliases of the current
ones — for every timeout and every scripted query behaviour they produce
the same result, with the same query and sleep counts. -/
theorem claim8_deprecated_aliases (id : String) (t : ℚ) (trace : List QueryResult) :
    wait_for_workspace_start id t trace = wait_for_sandbox_start id t trace
  ∧ wait_for_workspace_stop id t trace = wait_for_sandbox_stop id t trace :=
  ⟨rfl, rfl⟩

/-- Claim C9: `set_autostop_interval` is fail-fast and atomic at the
client — a non-`int` or negative argument raises a `DaytonaError` with the
state (cached interval and API call log) unchanged, while a non-negative
`int` reaches the API exactly once and is then cached on the instance. -/
theorem claim9_autostop_contract (st : AutostopState) (n : Int) (v : String) :
    set_autostop_interval st (.int n) =
      (if 0 ≤ n then SetAutostopResult.ok ⟨n, st.apiCalls ++ [n]⟩
       else SetAutostopResult.err "Auto-stop interval must be a non-negative integer" st)
  ∧ set_autostop_interval st (.nonIntValue v) =
      SetAutostopResult.err "Auto-stop interval must be a non-negative integer" st := by
  constructor
  · by_cases h : 0 ≤ n
    · rw [if_pos h]
      simp [set_autostop_interval, not_lt.mpr h]
    · rw [if_neg h]
      have hneg : n < 0 := by omega
      simp [set_autostop_interval, hneg]
  · rfl

/-- Claim C10: `set_labels` sends exactly the payload
`{"labels": normalized}` where normalization keeps every key unchanged,
turns booleans into the lowercase literals `true` and `false`, and turns
every other value into its `str()` rendering. -/
theorem claim10_labels_normalization (labels : List (String × PyLabelVal)) :
    set_labels labels = ⟨labels.map (fun kv => (kv.1, specLabelVal kv.2))⟩
  ∧ (set_labels labels).labels.map Prod.fst = labels.map Prod.fst := by
  have hval : ∀ v : PyLabelVal, normalizeLabelVal v = specLabelVal v := by
    intro v
    cases v with
    | pyBool b => cases b <;> decide
    | pyStr s => rfl
  constructor
  · simp [set_labels, hval]
  · simp [set_labels]

end Daytona
